import Mathlib

/-!
Verification development for the GSC-MCP repository: a shallow embedding of
the session-scoped tool-invocation gateway (per-session and process-wide
variants of the MCP server), the `GSCAuth` credential provider and the
`GSCClient` analytics operation set, together with theorems settling the
specification claims about them.
-/

namespace GSC

/-- JavaScript JSON values (as produced/consumed by the server handlers). -/
inductive Json where
  | null
  | bool (b : Bool)
  | num (n : Int)
  | str (s : String)
  | arr (xs : List Json)
  | obj (fields : List (String × Json))

/-- One character of a JSON string literal, escaped as JSON.stringify does. -/
def quoteChar (c : Char) : String :=
  if c = '\"' then "\\\""
  else if c = '\\' then "\\\\"
  else if c = '\n' then "\\n"
  else String.singleton c

/-- A JSON string literal with surrounding quotes. -/
def quoteStr (s : String) : String :=
  "\"" ++ String.join (s.data.map quoteChar) ++ "\""

mutual

/-- Rendering of `JSON.stringify(v, null, 2)` at current indentation `ind`: empty arrays and
objects render with no inner whitespace; non-empty ones render one element per
line, indented two further spaces. -/
def Json.render (ind : String) : Json → String
  | .null => "null"
  | .bool b => if b then "true" else "false"
  | .num n => toString n
  | .str s => quoteStr s
  | .arr [] => "[]"
  | .arr (x :: xs) =>
      "[\n" ++ Json.renderItems (ind ++ "  ") x xs ++ "\n" ++ ind ++ "]"
  | .obj [] => "\x7b\x7d"
  | .obj ((k, v) :: fs) =>
      "\x7b\n" ++ Json.renderFields (ind ++ "  ") k v fs ++ "\n" ++ ind ++ "\x7d"
termination_by j => sizeOf j

/-- Comma-separated, indented rendering of the elements of a non-empty array. -/
def Json.renderItems (ind : String) (x : Json) : List Json → String
  | [] => ind ++ Json.render ind x
  | y :: ys => ind ++ Json.render ind x ++ ",\n" ++ Json.renderItems ind y ys
termination_by xs => sizeOf x + sizeOf xs

/-- Comma-separated, indented rendering of the fields of a non-empty object. -/
def Json.renderFields (ind : String) (k : String) (v : Json) :
    List (String × Json) → String
  | [] => ind ++ quoteStr k ++ ": " ++ Json.render ind v
  | (k2, v2) :: gs =>
      ind ++ quoteStr k ++ ": " ++ Json.render ind v ++ ",\n" ++
        Json.renderFields ind k2 v2 gs
termination_by gs => sizeOf v + sizeOf gs

end

/-- Model of `JSON.stringify(v, null, 2)` as called by every tool-dispatch case. -/
def stringify2 (v : Json) : String := Json.render "" v

/-- The opaque token bundle returned by the authorization-code exchange
(`tokens` in `GSCAuth.handleCallback`). -/
structure Tokens where
  access_token : String
  refresh_token : Option String := none
deriving Repr, DecidableEq

/-- Constant `TOKEN_PATH = path.join(DATA_DIR, 'token.json')` from auth.ts (the
`DATA_DIR` prefix is abstracted away; only the single token file matters). -/
def TOKEN_PATH : String := "token.json"

/-- The mutable state outside any one handler: the heap of allocated
`OAuth2Client` objects (each holding its current credentials, mutated by
`setCredentials`) and the log of file writes performed with
`fs.writeFileSync`. -/
structure World where
  heap : List (Option Tokens)
  disk : List (String × Tokens)
deriving Repr, DecidableEq

/-- Effect of `oAuth2Client.setCredentials(tokens)`: mutates the heap cell of the given
client reference. -/
def setCred (w : World) (r : Nat) (t : Tokens) : World :=
  { w with heap := w.heap.set r (some t) }

/-- Effect of `fs.writeFileSync(p, t)`: appends a write record to the disk log. -/
def writeFile (w : World) (p : String) (t : Tokens) : World :=
  { w with disk := w.disk ++ [(p, t)] }

/-- The current content of file `p` (the last write to it), or `none` when the
file does not exist: models `fs.existsSync` + `fs.readFileSync`. -/
def lastWrite (w : World) (p : String) : Option Tokens :=
  ((w.disk.filter (fun e => e.1 = p)).getLast?).map (fun e => e.2)

/-- The credentials an `OAuth2Client` reference currently holds. -/
def credsAt (w : World) (r : Nat) : Option Tokens :=
  w.heap.getD r none

/-- JavaScript truthiness of an optional query-string value: absent and the
empty string are falsy. -/
def truthy : Option String → Bool
  | some s => !s.isEmpty
  | none => false

/-- Class `GSCAuth` from auth.ts: it wraps a single `OAuth2Client`, created once in
its constructor; `oAuth2Client` is the heap reference to that object. -/
structure GSCAuth where
  oAuth2Client : Nat
deriving Repr, DecidableEq

/-- Constant `SCOPES` from auth.ts. -/
def SCOPES : List String := ["https://www.googleapis.com/auth/webmasters.readonly"]

/-- A consent URL, kept structured as a base plus query parameters. -/
structure AuthUrl where
  base : String
  params : List (String × String)
deriving Repr, DecidableEq

/-- Model of `generateAuthUrl` of the external google-auth-library (an out-of-scope
collaborator): it serializes exactly the options it is given, emitting a
`state` query parameter precisely when the `state` option is present. -/
def generateAuthUrl (accessType : Option String) (scope : List String)
    (state : Option String) : AuthUrl :=
  { base := "https://accounts.google.com/o/oauth2/v2/auth",
    params :=
      (match accessType with
       | some a => [("access_type", a)]
       | none => []) ++
      [("scope", String.intercalate " " scope)] ++
      (match state with
       | some s => [("state", s)]
       | none => []) }

/-- Method `GSCAuth.getAuthUrl` from auth.ts lines 31-36: note that the method takes
no parameter and passes no `state` option to `generateAuthUrl` — callers that
pass a session id (as the per-session `/auth` handler does) have that extra
JavaScript argument silently dropped. -/
def GSCAuth.getAuthUrl (_a : GSCAuth) : AuthUrl :=
  generateAuthUrl (some "offline") SCOPES none

/-- Method `GSCAuth.getClient` from auth.ts: if token.json exists on disk, load it,
set it as the shared client's credentials and return the client; otherwise
return null. -/
def GSCAuth.getClient (a : GSCAuth) (w : World) : Option Nat × World :=
  match lastWrite w TOKEN_PATH with
  | some tokens => (some a.oAuth2Client, setCred w a.oAuth2Client tokens)
  | none => (none, w)

/-- Method `GSCAuth.handleCallback` from auth.ts lines 38-43: exchange the code for
tokens (via the external `getToken`, modelled as the oracle `exchange`), set
them on the shared client, write them to token.json with `fs.writeFileSync`,
and return the shared client itself. A failing exchange throws before any
mutation. -/
def GSCAuth.handleCallback (exchange : String → Except String Tokens)
    (a : GSCAuth) (code : String) (w : World) : Except String Nat × World :=
  match exchange code with
  | .error e => (.error e, w)
  | .ok tokens =>
      (.ok a.oAuth2Client, writeFile (setCred w a.oAuth2Client tokens) TOKEN_PATH tokens)

/-- Class `GSCClient` from gsc.ts: constructed over an `OAuth2Client` (kept as the
heap reference `auth`); the google `searchconsole` client it builds reads the
referenced client's current credentials at request time. -/
structure GSCClient where
  auth : Nat
deriving Repr, DecidableEq

/-- A `Session` from the per-session index.ts (the `server` field, being the
dispatcher itself, is modelled by the dispatch functions below). -/
structure Session where
  id : String
  transport : Nat
  gscClient : Option GSCClient
deriving Repr, DecidableEq

/-- The module-level `sessions = new Map<string, Session>()`. -/
abbrev SessionMap := List (String × Session)

/-- The credentials a client's backend calls are made with: the current
content of the shared `OAuth2Client` it references. -/
def GSCClient.credentialsAtCall (w : World) (c : GSCClient) : Option Tokens :=
  credsAt w c.auth

/-- Request body assembled by `searchanalytics.query` calls in gsc.ts. -/
structure QueryBody where
  startDate : Option String
  endDate : Option String
  dimensions : List String
  dimensionFilterGroups : Option Json
  rowLimit : Option Int

/-- The external Search Console API, one oracle per endpoint used by gsc.ts.
List-valued endpoints return the optional row/entry field of the response
(`siteEntry`, `rows`, `sitemap`), which the backend may omit; an `error`
result models the call throwing. -/
structure Backend where
  sitesList : Except String (Option (List Json))
  searchAnalyticsQuery : Option String → QueryBody → Except String (Option (List Json))
  urlInspect : Option String → Option String → Except String Json
  sitemapsList : Option String → Except String (Option (List Json))
  sitemapsSubmit : Option String → Option String → Except String Unit

/-- Rendering of a possibly-undefined value inside a template literal
(JavaScript prints `undefined`). -/
def jsShow : Option String → String
  | some s => s
  | none => "undefined"

/-- Method `GSCClient.listSites`: `res.data.siteEntry || []`. -/
def GSCClient.listSites (b : Backend) (_c : GSCClient) :
    Except String (List Json) :=
  (b.sitesList).map (fun d => d.getD [])

/-- Method `GSCClient.getSearchAnalytics`: forwards the query, `res.data.rows || []`. -/
def GSCClient.getSearchAnalytics (b : Backend) (_c : GSCClient)
    (siteUrl startDate endDate : Option String) (dimensions : List String)
    (dimensionFilterGroups : Option Json) : Except String (List Json) :=
  (b.searchAnalyticsQuery siteUrl
      ⟨startDate, endDate, dimensions, dimensionFilterGroups, none⟩).map
    (fun d => d.getD [])

/-- Method `GSCClient.inspectUrl`: returns `res.data` unchanged. -/
def GSCClient.inspectUrl (b : Backend) (_c : GSCClient)
    (siteUrl inspectionUrl : Option String) : Except String Json :=
  b.urlInspect siteUrl inspectionUrl

/-- Method `GSCClient.listSitemaps`: `res.data.sitemap || []`. -/
def GSCClient.listSitemaps (b : Backend) (_c : GSCClient)
    (siteUrl : Option String) : Except String (List Json) :=
  (b.sitemapsList siteUrl).map (fun d => d.getD [])

/-- Method `GSCClient.submitSitemap`: submits, then returns the literal
`{success: true, message}` object. -/
def GSCClient.submitSitemap (b : Backend) (_c : GSCClient)
    (siteUrl feedpath : Option String) : Except String Json :=
  (b.sitemapsSubmit siteUrl feedpath).map (fun _ =>
    Json.obj [("success", Json.bool true),
              ("message", Json.str ("Sitemap submitted: " ++ jsShow feedpath))])

/-- Method `GSCClient.getTopQueries`: `limit` is a default parameter (10 when the
caller passes `undefined`); queries with `dimensions: ['query']` and
`rowLimit: limit`. -/
def GSCClient.getTopQueries (b : Backend) (_c : GSCClient)
    (siteUrl startDate endDate : Option String) (limit : Option Int) :
    Except String (List Json) :=
  (b.searchAnalyticsQuery siteUrl
      ⟨startDate, endDate, ["query"], none, some (limit.getD 10)⟩).map
    (fun d => d.getD [])

/-- The `ErrorCode` values used by the dispatchers. -/
inductive ErrorCode where
  | internalError
  | methodNotFound
deriving Repr, DecidableEq

/-- Error value `McpError` as thrown by the dispatchers. -/
structure McpError where
  code : ErrorCode
  message : String
deriving Repr, DecidableEq

/-- One content item of a tool response (always of type "text" here). -/
structure ContentItem where
  type : String
  text : String
deriving Repr, DecidableEq

/-- A successful tool-call response. -/
structure ToolResponse where
  content : List ContentItem
deriving Repr, DecidableEq

/-- The argument mapping of a call-tool request: the fields the dispatch cases
destructure, each possibly absent (`undefined`). -/
structure ToolArgs where
  siteUrl : Option String := none
  startDate : Option String := none
  endDate : Option String := none
  dimensions : Option (List String) := none
  dimensionFilterGroups : Option Json := none
  limit : Option Int := none
  inspectionUrl : Option String := none
  feedpath : Option String := none

/-- A call-tool request (`request.params`). -/
structure CallToolRequest where
  name : String
  arguments : ToolArgs

/-- Which `GSCClient` method a dispatch case invoked, for stating that no
analytics operation ran. -/
inductive OpCall where
  | listSites
  | getSearchAnalytics
  | inspectUrl
  | listSitemaps
  | submitSitemap
  | getTopQueries
deriving Repr, DecidableEq

/-- A single-text-block success response, as built by every dispatch case. -/
def contentText (s : String) : ToolResponse := ⟨[⟨"text", s⟩]⟩

/-- The switch body of the per-session `CallToolRequestSchema` handler
(part_000 lines 130-200): three cases plus the default, each case wrapping
the client call in try/catch that rethrows as an internal-error `McpError`.
The returned list records which operation-set methods were invoked. -/
def dispatchSession (b : Backend) (c : GSCClient) (req : CallToolRequest) :
    Except McpError ToolResponse × List OpCall :=
  match req.name with
  | "list_sites" =>
      (match GSCClient.listSites b c with
       | .ok sites => (.ok (contentText (stringify2 (Json.arr sites))), [OpCall.listSites])
       | .error e =>
          (.error ⟨.internalError, "Failed to list sites: " ++ e⟩, [OpCall.listSites]))
  | "get_search_analytics" =>
      (match GSCClient.getSearchAnalytics b c req.arguments.siteUrl
          req.arguments.startDate req.arguments.endDate
          (req.arguments.dimensions.getD ["date"]) none with
       | .ok rows => (.ok (contentText (stringify2 (Json.arr rows))), [OpCall.getSearchAnalytics])
       | .error e =>
          (.error ⟨.internalError, "Failed to get search analytics: " ++ e⟩,
            [OpCall.getSearchAnalytics]))
  | "inspect_url" =>
      (match GSCClient.inspectUrl b c req.arguments.siteUrl
          req.arguments.inspectionUrl with
       | .ok r => (.ok (contentText (stringify2 r)), [OpCall.inspectUrl])
       | .error e =>
          (.error ⟨.internalError, "Failed to inspect URL: " ++ e⟩, [OpCall.inspectUrl]))
  | _ => (.error ⟨.methodNotFound, "Unknown tool: " ++ req.name⟩, [])

/-- The switch body of the process-wide `CallToolRequestSchema` handler
(part_000 lines 473-609): six cases plus the default. Unlike the per-session
variant, `get_search_analytics` forwards `dimensionFilterGroups`. -/
def dispatchProcess (b : Backend) (c : GSCClient) (req : CallToolRequest) :
    Except McpError ToolResponse × List OpCall :=
  match req.name with
  | "list_sites" =>
      (match GSCClient.listSites b c with
       | .ok sites => (.ok (contentText (stringify2 (Json.arr sites))), [OpCall.listSites])
       | .error e =>
          (.error ⟨.internalError, "Failed to list sites: " ++ e⟩, [OpCall.listSites]))
  | "get_search_analytics" =>
      (match GSCClient.getSearchAnalytics b c req.arguments.siteUrl
          req.arguments.startDate req.arguments.endDate
          (req.arguments.dimensions.getD ["date"])
          req.arguments.dimensionFilterGroups with
       | .ok rows => (.ok (contentText (stringify2 (Json.arr rows))), [OpCall.getSearchAnalytics])
       | .error e =>
          (.error ⟨.internalError, "Failed to get search analytics: " ++ e⟩,
            [OpCall.getSearchAnalytics]))
  | "get_top_queries" =>
      (match GSCClient.getTopQueries b c req.arguments.siteUrl
          req.arguments.startDate req.arguments.endDate req.arguments.limit with
       | .ok rows => (.ok (contentText (stringify2 (Json.arr rows))), [OpCall.getTopQueries])
       | .error e =>
          (.error ⟨.internalError, "Failed to get top queries: " ++ e⟩,
            [OpCall.getTopQueries]))
  | "inspect_url" =>
      (match GSCClient.inspectUrl b c req.arguments.siteUrl
          req.arguments.inspectionUrl with
       | .ok r => (.ok (contentText (stringify2 r)), [OpCall.inspectUrl])
       | .error e =>
          (.error ⟨.internalError, "Failed to inspect URL: " ++ e⟩, [OpCall.inspectUrl]))
  | "get_sitemaps" =>
      (match GSCClient.listSitemaps b c req.arguments.siteUrl with
       | .ok sitemaps => (.ok (contentText (stringify2 (Json.arr sitemaps))), [OpCall.listSitemaps])
       | .error e =>
          (.error ⟨.internalError, "Failed to list sitemaps: " ++ e⟩, [OpCall.listSitemaps]))
  | "submit_sitemap" =>
      (match GSCClient.submitSitemap b c req.arguments.siteUrl
          req.arguments.feedpath with
       | .ok r => (.ok (contentText (stringify2 r)), [OpCall.submitSitemap])
       | .error e =>
          (.error ⟨.internalError, "Failed to submit sitemap: " ++ e⟩,
            [OpCall.submitSitemap]))
  | _ => (.error ⟨.methodNotFound, "Unknown tool: " ++ req.name⟩, [])

/-- The authentication-required message of the per-session handler, embedding
the `/auth` URL stamped with the session id (part_000 lines 122-125). -/
def authRequiredMsgSession (redirectUri sessionId : String) : String :=
  "Authentication required. Please visit " ++
    (redirectUri.replace "/oauth2callback" "/auth") ++ "?sessionId=" ++
    sessionId ++ " to authenticate."

/-- The authentication-required message of the process-wide handler
(part_000 lines 466-469). -/
def authRequiredMsgProcess (redirectUri : String) : String :=
  "Authentication required. Please visit " ++
    (redirectUri.replace "/oauth2callback" "/auth") ++ " to authenticate."

/-- The per-session `CallToolRequestSchema` handler (part_000 lines 119-201):
resolve the session; if it is gone or has no bound client, throw the
authentication-required error, otherwise run the switch. -/
def callToolSession (redirectUri : String) (b : Backend)
    (sessions : SessionMap) (sessionId : String) (req : CallToolRequest) :
    Except McpError ToolResponse × List OpCall :=
  match sessions.lookup sessionId with
  | none => (.error ⟨.internalError, authRequiredMsgSession redirectUri sessionId⟩, [])
  | some s =>
      match s.gscClient with
      | none => (.error ⟨.internalError, authRequiredMsgSession redirectUri sessionId⟩, [])
      | some c => dispatchSession b c req

/-- The process-wide `CallToolRequestSchema` handler (part_000 lines 460-610):
if the module-level `gscClient` is unset, try `auth.getClient()` (loading a
persisted token from disk); if that yields nothing, throw the
authentication-required error, otherwise dispatch. Returns the response, the
new module-level client, the new world, and the invoked operations. -/
def callToolProcess (redirectUri : String) (b : Backend) (a : GSCAuth)
    (g : Option GSCClient) (w : World) (req : CallToolRequest) :
    Except McpError ToolResponse × Option GSCClient × World × List OpCall :=
  match g with
  | some c =>
      let (r, t) := dispatchProcess b c req
      (r, some c, w, t)
  | none =>
      match GSCAuth.getClient a w with
      | (some ref, w2) =>
          let c : GSCClient := ⟨ref⟩
          let (r, t) := dispatchProcess b c req
          (r, some c, w2, t)
      | (none, w2) =>
          (.error ⟨.internalError, authRequiredMsgProcess redirectUri⟩, none, w2, [])

/-- Assignment `session.gscClient = new GSCClient(oAuthClient)` on the map entry named
`sid`: the session object held in the map is mutated in place. -/
def bindSession (m : SessionMap) (sid : String) (ref : Nat) : SessionMap :=
  m.map (fun p =>
    if p.1 = sid then (p.1, { p.2 with gscClient := some ⟨ref⟩ }) else p)

/-- An HTTP response of the express handlers: status code and body text. -/
structure HttpResult where
  status : Nat
  body : String
deriving Repr, DecidableEq

/-- The per-session `/oauth2callback` handler (part_000 lines 243-265):
requires truthy `code` and `state` (else 400); exchanges the code (a throwing
exchange yields 500); binds the resulting client to the session named by
`state` when it still exists (200), else responds 404 without binding. -/
def oauth2callbackSession (exchange : String → Except String Tokens)
    (a : GSCAuth) (sessions : SessionMap) (w : World)
    (code state : Option String) : HttpResult × SessionMap × World :=
  if truthy code && truthy state then
    match GSCAuth.handleCallback exchange a (code.getD "") w with
    | (.ok ref, w2) =>
        match sessions.lookup (state.getD "") with
        | some _ =>
            (⟨200, "Authentication successful! You can now close this window and use the MCP server."⟩,
              bindSession sessions (state.getD "") ref, w2)
        | none =>
            (⟨404, "Session expired or not found. Please try connecting again."⟩,
              sessions, w2)
    | (.error _, w2) => (⟨500, "Authentication failed."⟩, sessions, w2)
  else
    (⟨400, "Missing code or state."⟩, sessions, w)

/-- Result of the `/auth` endpoint: a 400 error or a 302 redirect. -/
inductive AuthEndpointResult where
  | badRequest (msg : String)
  | redirect (url : AuthUrl)
deriving Repr, DecidableEq

/-- The per-session `/auth` handler (part_000 lines 267-274): requires a
truthy `sessionId` query parameter, then redirects to `auth.getAuthUrl(...)`.
The JavaScript call passes `sessionId` as an argument, but `getAuthUrl` is
parameterless, so the argument is dropped and does not reach the URL. -/
def authHandlerSession (a : GSCAuth) (sessionId : Option String) :
    AuthEndpointResult :=
  if truthy sessionId then .redirect (GSCAuth.getAuthUrl a)
  else .badRequest "Missing sessionId parameter"

/-- A tool descriptor of the advertised catalog. -/
structure ToolDescriptor where
  name : String
  description : String
  inputSchema : Json

/-- Schema fragment: a string property with a description. -/
def strProp (desc : String) : Json :=
  Json.obj [("type", Json.str "string"), ("description", Json.str desc)]

/-- The `get_search_analytics` properties shared by both catalogs (the
process-wide catalog adds `dimensionFilterGroups`). -/
def searchAnalyticsProps : List (String × Json) :=
  [("siteUrl", strProp "The URL of the property as defined in Search Console"),
   ("startDate", strProp "Start date in YYYY-MM-DD format"),
   ("endDate", strProp "End date in YYYY-MM-DD format"),
   ("dimensions", Json.obj
      [("type", Json.str "array"),
       ("items", Json.obj
          [("type", Json.str "string"),
           ("enum", Json.arr [Json.str "date", Json.str "query", Json.str "page",
              Json.str "country", Json.str "device", Json.str "searchAppearance"])]),
       ("description", Json.str "Dimensions to group results by")])]

/-- The catalog returned by the per-session `ListToolsRequestSchema` handler
(part_000 lines 56-117): exactly three tools. -/
def listToolsSession : List ToolDescriptor :=
  [{ name := "list_sites",
     description := "List all sites in the Search Console account",
     inputSchema := Json.obj
       [("type", Json.str "object"), ("properties", Json.obj [])] },
   { name := "get_search_analytics",
     description := "Query search analytics data",
     inputSchema := Json.obj
       [("type", Json.str "object"),
        ("properties", Json.obj searchAnalyticsProps),
        ("required", Json.arr [Json.str "siteUrl", Json.str "startDate", Json.str "endDate"])] },
   { name := "inspect_url",
     description := "Inspect a specific URL",
     inputSchema := Json.obj
       [("type", Json.str "object"),
        ("properties", Json.obj
          [("siteUrl", strProp "The URL of the property as defined in Search Console"),
           ("inspectionUrl", strProp "The URL to inspect")]),
        ("required", Json.arr [Json.str "siteUrl", Json.str "inspectionUrl"])] }]

/-- The catalog returned by the process-wide `ListToolsRequestSchema` handler
(part_000 lines 332-458): exactly six tools. -/
def listToolsProcess : List ToolDescriptor :=
  [{ name := "list_sites",
     description := "List all sites in the Search Console account",
     inputSchema := Json.obj
       [("type", Json.str "object"), ("properties", Json.obj [])] },
   { name := "get_search_analytics",
     description := "Query search analytics data",
     inputSchema := Json.obj
       [("type", Json.str "object"),
        ("properties", Json.obj (searchAnalyticsProps ++
          [("dimensionFilterGroups", Json.obj
             [("type", Json.str "array"),
              ("description", Json.str "Filters for the query. See Google Search Console API docs for structure."),
              ("items", Json.obj [("type", Json.str "object")])])])),
        ("required", Json.arr [Json.str "siteUrl", Json.str "startDate", Json.str "endDate"])] },
   { name := "get_top_queries",
     description := "Get top performing queries for a site",
     inputSchema := Json.obj
       [("type", Json.str "object"),
        ("properties", Json.obj
          [("siteUrl", strProp "The URL of the property"),
           ("startDate", strProp "Start date (YYYY-MM-DD)"),
           ("endDate", strProp "End date (YYYY-MM-DD)"),
           ("limit", Json.obj
             [("type", Json.str "number"),
              ("description", Json.str "Number of queries to return (default 10)")])]),
        ("required", Json.arr [Json.str "siteUrl", Json.str "startDate", Json.str "endDate"])] },
   { name := "inspect_url",
     description := "Inspect a specific URL",
     inputSchema := Json.obj
       [("type", Json.str "object"),
        ("properties", Json.obj
          [("siteUrl", strProp "The URL of the property as defined in Search Console"),
           ("inspectionUrl", strProp "The URL to inspect")]),
        ("required", Json.arr [Json.str "siteUrl", Json.str "inspectionUrl"])] },
   { name := "get_sitemaps",
     description := "List sitemaps for a site",
     inputSchema := Json.obj
       [("type", Json.str "object"),
        ("properties", Json.obj
          [("siteUrl", strProp "The URL of the property as defined in Search Console")]),
        ("required", Json.arr [Json.str "siteUrl"])] },
   { name := "submit_sitemap",
     description := "Submit a sitemap for a site",
     inputSchema := Json.obj
       [("type", Json.str "object"),
        ("properties", Json.obj
          [("siteUrl", strProp "The URL of the property as defined in Search Console"),
           ("feedpath", strProp "The URL of the sitemap to submit")]),
        ("required", Json.arr [Json.str "siteUrl", Json.str "feedpath"])] }]

/-- Whether a dispatch result is the Unknown-tool (`MethodNotFound`) error. -/
def isMethodNotFound : Except McpError ToolResponse → Bool
  | .error err => err.code = ErrorCode.methodNotFound
  | .ok _ => false

/-- The process-wide `/sse` handler (part_000 lines 617-621): unconditionally
overwrites the module-level `transport` variable with the new connection. -/
def sseHandlerProcess (connId : Nat) (_transport : Option Nat) : Option Nat :=
  some connId

/-- Outcome of posting to the process-wide `/messages` endpoint. -/
inductive PostResult where
  | handled (connId : Nat)
  | noConnection400
deriving Repr, DecidableEq

/-- The process-wide `/messages` handler (part_000 lines 623-630): routes to
the current module-level transport if one exists, else responds 400. -/
def messagesHandlerProcess : Option Nat → PostResult
  | some c => .handled c
  | none => .noConnection400

/-- The module-level transport after a sequence of `/sse` connections,
starting from the initial `null`. -/
def runConnections (connects : List Nat) : Option Nat :=
  connects.foldl (fun st c => sseHandlerProcess c st) none

/-- The default `REDIRECT_URI` from index.ts. -/
def defaultRedirectUri : String := "http://localhost:3000/oauth2callback"

/-- A backend stub whose list-valued endpoints all report the row/entry field
absent. -/
def emptyBackend : Backend where
  sitesList := .ok none
  searchAnalyticsQuery := fun _ _ => .ok none
  urlInspect := fun _ _ => .ok Json.null
  sitemapsList := fun _ => .ok none
  sitemapsSubmit := fun _ _ => .ok ()

/-- A backend stub every endpoint of which throws with message "boom". -/
def boomBackend : Backend where
  sitesList := .error "boom"
  searchAnalyticsQuery := fun _ _ => .error "boom"
  urlInspect := fun _ _ => .error "boom"
  sitemapsList := fun _ => .error "boom"
  sitemapsSubmit := fun _ _ => .error "boom"

/-- A concrete token bundle. -/
def tok1 : Tokens := ⟨"access-1", some "refresh-1"⟩

/-- A second, distinct concrete token bundle. -/
def tok2 : Tokens := ⟨"access-2", some "refresh-2"⟩

/-- C1: a call-tool request on a session with no bound credential (session
gone, or present but unbound), or on the process-wide server with no cached
client and no persisted token on disk, fails with the Authentication-required
`McpError` embedding the constructed `/auth` URL, and no Analytics Operation
Set method is invoked (the operation trace is empty). -/
theorem c1_unauthenticated_call_fails :
    (∀ (redirectUri : String) (b : Backend) (sessions : SessionMap)
        (sid : String) (req : CallToolRequest),
        (sessions.lookup sid = none ∨
          ∃ s, sessions.lookup sid = some s ∧ s.gscClient = none) →
        callToolSession redirectUri b sessions sid req =
          (.error ⟨.internalError, authRequiredMsgSession redirectUri sid⟩, [])) ∧
    (∀ (redirectUri : String) (b : Backend) (a : GSCAuth) (w : World)
        (req : CallToolRequest),
        lastWrite w TOKEN_PATH = none →
        callToolProcess redirectUri b a none w req =
          (.error ⟨.internalError, authRequiredMsgProcess redirectUri⟩, none, w, [])) := by
  constructor
  · intro redirectUri b sessions sid req h
    rcases h with h | ⟨s, hs, hg⟩
    · simp [callToolSession, h]
    · simp [callToolSession, hs, hg]
  · intro redirectUri b a w req h
    simp [callToolProcess, GSCAuth.getClient, h]

/-- Witness for C1 at concrete inputs: an empty registry on the per-session
side, an empty disk on the process-wide side. -/
theorem c1_unauthenticated_call_fails_witness :
    callToolSession defaultRedirectUri emptyBackend [] "s1" ⟨"list_sites", {}⟩ =
      (.error ⟨.internalError, authRequiredMsgSession defaultRedirectUri "s1"⟩, []) ∧
    callToolProcess defaultRedirectUri emptyBackend ⟨0⟩ none ⟨[none], []⟩
        ⟨"list_sites", {}⟩ =
      (.error ⟨.internalError, authRequiredMsgProcess defaultRedirectUri⟩, none,
        ⟨[none], []⟩, []) :=
  ⟨c1_unauthenticated_call_fails.1 _ _ _ _ _ (Or.inl rfl),
   c1_unauthenticated_call_fails.2 _ _ _ _ _ rfl⟩

/-- C2 counterexample: in the per-session variant, a successful
authorization-code exchange does change a file on disk — the callback on a
live session starting from an empty disk leaves a write of the token bundle
to token.json, refuting "no file on disk changes as an effect of the
exchange". -/
theorem c2_exchange_persists_to_disk :
    ((oauth2callbackSession (fun _ => .ok tok1) ⟨0⟩
        [("s1", ⟨"s1", 0, none⟩)] ⟨[none], []⟩ (some "c0") (some "s1")).2.2).disk =
      [(TOKEN_PATH, tok1)] ∧
    ([(TOKEN_PATH, tok1)] : List (String × Tokens)) ≠ [] := by
  exact ⟨rfl, by simp⟩

/-- C2 amended: every successful authorization-code exchange in the
per-session callback writes the token bundle to token.json (the shared
`GSCAuth.handleCallback` always calls `fs.writeFileSync`), and this is the
only disk write — binding the credential to the session itself adds none. -/
theorem c2_exchange_always_writes_token_file :
    ∀ (exchange : String → Except String Tokens) (a : GSCAuth)
      (sessions : SessionMap) (w : World) (code state : Option String)
      (t : Tokens),
      truthy code = true → truthy state = true →
      exchange (code.getD "") = .ok t →
      ((oauth2callbackSession exchange a sessions w code state).2.2).disk =
        w.disk ++ [(TOKEN_PATH, t)] := by
  intro exchange a sessions w code state t hc hs he
  unfold oauth2callbackSession
  rw [hc, hs]
  simp only [Bool.and_self, if_true]
  simp only [GSCAuth.handleCallback, he]
  cases hl : sessions.lookup (state.getD "") <;>
    simp [hl, writeFile, setCred]

/-- Witness for C2's amended theorem at a concrete exchange. -/
theorem c2_exchange_always_writes_token_file_witness :
    ((oauth2callbackSession (fun _ => .ok tok1) ⟨0⟩ []
        ⟨[none], []⟩ (some "c0") (some "s9")).2.2).disk =
      ([] : List (String × Tokens)) ++ [(TOKEN_PATH, tok1)] :=
  c2_exchange_always_writes_token_file _ _ _ _ _ _ _ rfl rfl rfl

/-- C3: evaluation at the failing input (session id "abc"): the per-session
`/auth` handler redirects to `auth.getAuthUrl(...)`, but `getAuthUrl` is
parameterless and passes no `state` option, so the produced consent URL is
the same for every session id and carries no `state` parameter at all — the
session identifier is never embedded, and the subsequent callback can never
be routed back to the originating session. -/
theorem c3_auth_url_has_no_state :
    authHandlerSession ⟨0⟩ (some "abc") = .redirect (GSCAuth.getAuthUrl ⟨0⟩) ∧
    authHandlerSession ⟨0⟩ (some "abc") = authHandlerSession ⟨0⟩ (some "xyz") ∧
    ((GSCAuth.getAuthUrl ⟨0⟩).params.filter (fun p => p.1 == "state")) = [] := by
  exact ⟨rfl, rfl, rfl⟩

/-- C4 counterexample: the per-session gateway's catalog advertises only
three of the six named operations — `get_top_queries`, `get_sitemaps` and
`submit_sitemap` are present in the process-wide catalog but absent from the
per-session one, refuting "each covering exactly the six operations". -/
theorem c4_per_session_catalog_missing_tools :
    listToolsSession.map ToolDescriptor.name =
      ["list_sites", "get_search_analytics", "inspect_url"] ∧
    "get_top_queries" ∈ listToolsProcess.map ToolDescriptor.name ∧
    "get_sitemaps" ∈ listToolsProcess.map ToolDescriptor.name ∧
    "submit_sitemap" ∈ listToolsProcess.map ToolDescriptor.name ∧
    "get_top_queries" ∉ listToolsSession.map ToolDescriptor.name ∧
    "get_sitemaps" ∉ listToolsSession.map ToolDescriptor.name ∧
    "submit_sitemap" ∉ listToolsSession.map ToolDescriptor.name := by
  refine ⟨rfl, ?_, ?_, ?_, ?_, ?_, ?_⟩ <;> decide

/-- C4 amended: catalog and dispatch table are in lockstep in each variant,
but they cover six operations only in the process-wide variant; the
per-session variant covers exactly three (list properties, query analytics,
inspect URL). In both variants a call-tool dispatch reaches the Unknown-tool
default case exactly when the name is outside that variant's catalog. -/
theorem c4_catalog_dispatch_lockstep :
    listToolsProcess.map ToolDescriptor.name =
      ["list_sites", "get_search_analytics", "get_top_queries", "inspect_url",
       "get_sitemaps", "submit_sitemap"] ∧
    listToolsSession.map ToolDescriptor.name =
      ["list_sites", "get_search_analytics", "inspect_url"] ∧
    (∀ (b : Backend) (c : GSCClient) (req : CallToolRequest),
      isMethodNotFound (dispatchProcess b c req).1 = true ↔
        req.name ∉ listToolsProcess.map ToolDescriptor.name) ∧
    (∀ (b : Backend) (c : GSCClient) (req : CallToolRequest),
      isMethodNotFound (dispatchSession b c req).1 = true ↔
        req.name ∉ listToolsSession.map ToolDescriptor.name) := by
  refine ⟨rfl, rfl, ?_, ?_⟩
  · intro b c req
    rcases req with ⟨name, args⟩
    rw [show listToolsProcess.map ToolDescriptor.name =
      ["list_sites", "get_search_analytics", "get_top_queries", "inspect_url",
       "get_sitemaps", "submit_sitemap"] from rfl]
    simp only [dispatchProcess]
    split <;> (try split) <;> simp_all [isMethodNotFound]
  · intro b c req
    rcases req with ⟨name, args⟩
    rw [show listToolsSession.map ToolDescriptor.name =
      ["list_sites", "get_search_analytics", "inspect_url"] from rfl]
    simp only [dispatchSession]
    split <;> (try split) <;> simp_all [isMethodNotFound]

/-- C5 counterexample: an unrecognized tool name on an unauthenticated
session does not fail with Unknown-tool — the authentication check runs
first, so the result is the Authentication-required internal error, refuting
"regardless of the session's authentication state". -/
theorem c5_unknown_tool_unauthenticated :
    (callToolSession defaultRedirectUri emptyBackend [] "s1"
        ⟨"bogus_tool", {}⟩).1 =
      .error ⟨.internalError, authRequiredMsgSession defaultRedirectUri "s1"⟩ ∧
    isMethodNotFound (callToolSession defaultRedirectUri emptyBackend [] "s1"
        ⟨"bogus_tool", {}⟩).1 = false :=
  ⟨rfl, rfl⟩

/-- C5 amended: on an authenticated session (or with the process-wide client
available), a call-tool request whose name is outside the fixed catalog fails
with the Unknown-tool (`MethodNotFound`) error and invokes no backend
operation; when unauthenticated the request instead fails earlier with
Authentication-required (see the counterexample), still invoking no backend
operation. -/
theorem c5_unknown_tool_method_not_found :
    (∀ (redirectUri : String) (b : Backend) (sessions : SessionMap)
        (sid : String) (req : CallToolRequest) (s : Session) (c : GSCClient),
        sessions.lookup sid = some s → s.gscClient = some c →
        req.name ∉ listToolsSession.map ToolDescriptor.name →
        callToolSession redirectUri b sessions sid req =
          (.error ⟨.methodNotFound, "Unknown tool: " ++ req.name⟩, [])) ∧
    (∀ (redirectUri : String) (b : Backend) (a : GSCAuth) (c : GSCClient)
        (w : World) (req : CallToolRequest),
        req.name ∉ listToolsProcess.map ToolDescriptor.name →
        callToolProcess redirectUri b a (some c) w req =
          (.error ⟨.methodNotFound, "Unknown tool: " ++ req.name⟩, some c, w, [])) := by
  constructor
  · intro redirectUri b sessions sid req s c hs hg hn
    rcases req with ⟨name, args⟩
    rw [show listToolsSession.map ToolDescriptor.name =
      ["list_sites", "get_search_analytics", "inspect_url"] from rfl] at hn
    simp only [callToolSession, hs, hg]
    simp only [dispatchSession]
    split
    all_goals first
      | rfl
      | simp at hn
  · intro redirectUri b a c w req hn
    rcases req with ⟨name, args⟩
    rw [show listToolsProcess.map ToolDescriptor.name =
      ["list_sites", "get_search_analytics", "get_top_queries", "inspect_url",
       "get_sitemaps", "submit_sitemap"] from rfl] at hn
    simp only [callToolProcess]
    simp only [dispatchProcess]
    split
    all_goals first
      | rfl
      | simp at hn

/-- Witness for C5's amended theorem: an authenticated session and an
available process-wide client, each asked for the unknown name
"bogus_tool". -/
theorem c5_unknown_tool_method_not_found_witness :
    callToolSession defaultRedirectUri emptyBackend
        [("s1", ⟨"s1", 0, some ⟨0⟩⟩)] "s1" ⟨"bogus_tool", {}⟩ =
      (.error ⟨.methodNotFound, "Unknown tool: " ++ "bogus_tool"⟩, []) ∧
    callToolProcess defaultRedirectUri emptyBackend ⟨0⟩ (some ⟨0⟩)
        ⟨[none], []⟩ ⟨"bogus_tool", {}⟩ =
      (.error ⟨.methodNotFound, "Unknown tool: " ++ "bogus_tool"⟩, some ⟨0⟩,
        ⟨[none], []⟩, []) :=
  ⟨c5_unknown_tool_method_not_found.1 _ _ _ _ _ _ _ rfl rfl (by decide),
   c5_unknown_tool_method_not_found.2 _ _ _ _ _ _ (by decide)⟩

/-- C6: whenever the invoked Analytics Operation Set method throws (the
backend call for that tool returns an error `e`), the dispatch case catches
it and returns a structured `McpError` of kind internal-error whose message
is the case's diagnostic text followed by the backend's own message/stack;
the result type shows the raw exception never crosses the dispatch boundary.
Covers all three per-session cases and all six process-wide cases. -/
theorem c6_backend_errors_wrapped :
    ∀ (b : Backend) (c : GSCClient) (args : ToolArgs) (e : String),
      (b.sitesList = .error e →
        (dispatchSession b c ⟨"list_sites", args⟩).1 =
          .error ⟨.internalError, "Failed to list sites: " ++ e⟩) ∧
      (b.searchAnalyticsQuery args.siteUrl
          ⟨args.startDate, args.endDate, args.dimensions.getD ["date"], none,
            none⟩ = .error e →
        (dispatchSession b c ⟨"get_search_analytics", args⟩).1 =
          .error ⟨.internalError, "Failed to get search analytics: " ++ e⟩) ∧
      (b.urlInspect args.siteUrl args.inspectionUrl = .error e →
        (dispatchSession b c ⟨"inspect_url", args⟩).1 =
          .error ⟨.internalError, "Failed to inspect URL: " ++ e⟩) ∧
      (b.sitesList = .error e →
        (dispatchProcess b c ⟨"list_sites", args⟩).1 =
          .error ⟨.internalError, "Failed to list sites: " ++ e⟩) ∧
      (b.searchAnalyticsQuery args.siteUrl
          ⟨args.startDate, args.endDate, args.dimensions.getD ["date"],
            args.dimensionFilterGroups, none⟩ = .error e →
        (dispatchProcess b c ⟨"get_search_analytics", args⟩).1 =
          .error ⟨.internalError, "Failed to get search analytics: " ++ e⟩) ∧
      (b.searchAnalyticsQuery args.siteUrl
          ⟨args.startDate, args.endDate, ["query"], none,
            some (args.limit.getD 10)⟩ = .error e →
        (dispatchProcess b c ⟨"get_top_queries", args⟩).1 =
          .error ⟨.internalError, "Failed to get top queries: " ++ e⟩) ∧
      (b.urlInspect args.siteUrl args.inspectionUrl = .error e →
        (dispatchProcess b c ⟨"inspect_url", args⟩).1 =
          .error ⟨.internalError, "Failed to inspect URL: " ++ e⟩) ∧
      (b.sitemapsList args.siteUrl = .error e →
        (dispatchProcess b c ⟨"get_sitemaps", args⟩).1 =
          .error ⟨.internalError, "Failed to list sitemaps: " ++ e⟩) ∧
      (b.sitemapsSubmit args.siteUrl args.feedpath = .error e →
        (dispatchProcess b c ⟨"submit_sitemap", args⟩).1 =
          .error ⟨.internalError, "Failed to submit sitemap: " ++ e⟩) := by
  intro b c args e
  refine ⟨?_, ?_, ?_, ?_, ?_, ?_, ?_, ?_, ?_⟩ <;>
    (intro h;
     simp [dispatchSession, dispatchProcess, GSCClient.listSites,
       GSCClient.getSearchAnalytics, GSCClient.inspectUrl,
       GSCClient.listSitemaps, GSCClient.submitSitemap,
       GSCClient.getTopQueries, h, Except.map])

/-- Witness for C6 at a backend stub every endpoint of which throws "boom":
one per-session case and one process-wide case of the wrapped error. -/
theorem c6_backend_errors_wrapped_witness :
    (dispatchSession boomBackend ⟨0⟩ ⟨"list_sites", {}⟩).1 =
      .error ⟨.internalError, "Failed to list sites: " ++ "boom"⟩ ∧
    (dispatchProcess boomBackend ⟨0⟩ ⟨"submit_sitemap", {}⟩).1 =
      .error ⟨.internalError, "Failed to submit sitemap: " ++ "boom"⟩ :=
  ⟨(c6_backend_errors_wrapped boomBackend ⟨0⟩ {} "boom").1 rfl,
   (c6_backend_errors_wrapped boomBackend ⟨0⟩ {} "boom").2.2.2.2.2.2.2.2 rfl⟩

/-- C7: a per-session OAuth callback carrying a truthy code whose exchange
succeeds, but whose `state` names a session id absent from the registry,
responds 404 "Session expired or not found. Please try connecting again."
and leaves the session registry unchanged (no credential is bound to any
session); the handler is a total function, so it returns normally rather
than throwing, and the process keeps serving. -/
theorem c7_callback_session_expired :
    ∀ (exchange : String → Except String Tokens) (a : GSCAuth)
      (sessions : SessionMap) (w : World) (code state : Option String)
      (t : Tokens),
      truthy code = true → truthy state = true →
      exchange (code.getD "") = .ok t →
      sessions.lookup (state.getD "") = none →
      (oauth2callbackSession exchange a sessions w code state).1 =
        ⟨404, "Session expired or not found. Please try connecting again."⟩ ∧
      (oauth2callbackSession exchange a sessions w code state).2.1 =
        sessions := by
  intro exchange a sessions w code state t hc hs he hl
  unfold oauth2callbackSession
  rw [hc, hs]
  simp [GSCAuth.handleCallback, he, hl]

/-- Witness for C7: a live registry containing only "s1", a callback whose
state names the departed session "gone". -/
theorem c7_callback_session_expired_witness :
    (oauth2callbackSession (fun _ => .ok tok1) ⟨0⟩
        [("s1", ⟨"s1", 0, none⟩)] ⟨[none], []⟩ (some "c0") (some "gone")).1 =
      ⟨404, "Session expired or not found. Please try connecting again."⟩ ∧
    (oauth2callbackSession (fun _ => .ok tok1) ⟨0⟩
        [("s1", ⟨"s1", 0, none⟩)] ⟨[none], []⟩ (some "c0") (some "gone")).2.1 =
      [("s1", ⟨"s1", 0, none⟩)] :=
  c7_callback_session_expired _ _ _ _ _ _ tok1 rfl rfl rfl rfl

/-- C8: when the backend omits the row/entry field, each list-valued
operation returns the empty list rather than null; `JSON.stringify([], null,
2)` renders as exactly "[]"; and the full rendered tool response for
`list_sites` on such a backend is the single text block "[]". -/
theorem c8_absent_rows_render_empty :
    ∀ (b : Backend) (c : GSCClient) (sessions : SessionMap) (sid : String)
      (s : Session) (su sd ed : Option String) (dims : List String)
      (f : Option Json) (lim : Option Int),
      b.sitesList = .ok none →
      (∀ su2 q, b.searchAnalyticsQuery su2 q = .ok none) →
      (∀ su2, b.sitemapsList su2 = .ok none) →
      GSCClient.listSites b c = .ok [] ∧
      GSCClient.getSearchAnalytics b c su sd ed dims f = .ok [] ∧
      GSCClient.listSitemaps b c su = .ok [] ∧
      GSCClient.getTopQueries b c su sd ed lim = .ok [] ∧
      stringify2 (Json.arr []) = "[]" ∧
      (sessions.lookup sid = some s → s.gscClient = some c →
        (callToolSession defaultRedirectUri b sessions sid
            ⟨"list_sites", {}⟩).1 = .ok (contentText "[]")) := by
  intro b c sessions sid s su sd ed dims f lim h1 h2 h3
  refine ⟨?_, ?_, ?_, ?_, by simp [stringify2, Json.render], ?_⟩
  · simp [GSCClient.listSites, h1, Except.map]
  · simp [GSCClient.getSearchAnalytics, h2, Except.map]
  · simp [GSCClient.listSitemaps, h3, Except.map]
  · simp [GSCClient.getTopQueries, h2, Except.map]
  · intro hs hg
    simp [callToolSession, hs, hg, dispatchSession, GSCClient.listSites, h1,
      Except.map, stringify2, Json.render]

/-- Witness for C8 at the concrete empty backend and a bound session. -/
theorem c8_absent_rows_render_empty_witness :
    GSCClient.listSites emptyBackend ⟨0⟩ = .ok [] ∧
    GSCClient.getSearchAnalytics emptyBackend ⟨0⟩ (some "https://example.com")
        (some "2024-01-01") (some "2024-01-31") ["date"] none = .ok [] ∧
    GSCClient.listSitemaps emptyBackend ⟨0⟩ (some "https://example.com") = .ok [] ∧
    GSCClient.getTopQueries emptyBackend ⟨0⟩ (some "https://example.com")
        (some "2024-01-01") (some "2024-01-31") none = .ok [] ∧
    stringify2 (Json.arr []) = "[]" ∧
    (callToolSession defaultRedirectUri emptyBackend
        [("s1", ⟨"s1", 0, some ⟨0⟩⟩)] "s1" ⟨"list_sites", {}⟩).1 =
      .ok (contentText "[]") := by
  have h := c8_absent_rows_render_empty emptyBackend ⟨0⟩
    [("s1", ⟨"s1", 0, some ⟨0⟩⟩)] "s1" ⟨"s1", 0, some ⟨0⟩⟩
    (some "https://example.com") (some "2024-01-01") (some "2024-01-31")
    ["date"] none none rfl (fun _ _ => rfl) (fun _ => rfl)
  exact ⟨h.1, h.2.1, h.2.2.1, h.2.2.2.1, h.2.2.2.2.1, h.2.2.2.2.2 rfl rfl⟩

/-- Looking a key up after `bindSession`: the map's keys are unchanged and
the value found is rewritten exactly when the key is the bound one. -/
theorem lookup_bindSession (m : SessionMap) (sid k : String) (ref : Nat) :
    (bindSession m sid ref).lookup k =
      (m.lookup k).map
        (fun s => if k = sid then { s with gscClient := some ⟨ref⟩ } else s) := by
  induction m with
  | nil => rfl
  | cons p m ih =>
    rcases p with ⟨k2, s2⟩
    simp only [bindSession] at ih ⊢
    by_cases hk : k = k2
    · subst hk
      by_cases h2 : k = sid <;> simp [List.lookup_cons, h2]
    · by_cases h2 : k2 = sid
      · subst h2
        simp [List.lookup_cons, beq_false_of_ne hk, ih]
      · simp [h2, List.lookup_cons, beq_false_of_ne hk, ih]

/-- Setting the credentials of a valid client reference makes them the
credentials subsequently read from that reference. -/
theorem credsAt_setCred (w : World) (r : Nat) (t : Tokens)
    (h : r < w.heap.length) : credsAt (setCred w r t) r = some t := by
  simp [credsAt, setCred, List.getD, List.getElem?_set_eq_of_lt _ h]

/-- Lemma: `setCred` and `writeFile` preserve the number of allocated clients. -/
theorem heap_length_stable (w : World) (r : Nat) (t : Tokens) (p : String) :
    (writeFile (setCred w r t) p t).heap.length = w.heap.length := by
  simp [writeFile, setCred]

/-- C9: in the per-session variant all sessions share the single module-level
`GSCAuth`'s one `OAuth2Client`. After session `sid1` completes its OAuth
callback (tokens `t1`) and a later session `sid2` completes its own callback
(tokens `t2`), both sessions hold a `GSCClient` constructed over the very
same client reference `a.oAuth2Client`, and that shared client now holds
`t2` — so session `sid1`'s subsequent backend calls are made with the most
recently exchanged credentials, not its own. -/
theorem c9_shared_oauth_client :
    ∀ (exch1 exch2 : String → Except String Tokens) (a : GSCAuth)
      (sessions : SessionMap) (w : World) (code1 code2 sid1 sid2 : String)
      (t1 t2 : Tokens) (s1 s2 : Session),
      a.oAuth2Client < w.heap.length →
      truthy (some code1) = true → truthy (some sid1) = true →
      truthy (some code2) = true → truthy (some sid2) = true →
      exch1 code1 = .ok t1 → exch2 code2 = .ok t2 →
      sessions.lookup sid1 = some s1 → sessions.lookup sid2 = some s2 →
      ∃ s1' s2' : Session,
        ((oauth2callbackSession exch2 a
            (oauth2callbackSession exch1 a sessions w (some code1) (some sid1)).2.1
            (oauth2callbackSession exch1 a sessions w (some code1) (some sid1)).2.2
            (some code2) (some sid2)).2.1).lookup sid1 = some s1' ∧
        s1'.gscClient = some ⟨a.oAuth2Client⟩ ∧
        ((oauth2callbackSession exch2 a
            (oauth2callbackSession exch1 a sessions w (some code1) (some sid1)).2.1
            (oauth2callbackSession exch1 a sessions w (some code1) (some sid1)).2.2
            (some code2) (some sid2)).2.1).lookup sid2 = some s2' ∧
        s2'.gscClient = some ⟨a.oAuth2Client⟩ ∧
        GSCClient.credentialsAtCall
          (oauth2callbackSession exch2 a
            (oauth2callbackSession exch1 a sessions w (some code1) (some sid1)).2.1
            (oauth2callbackSession exch1 a sessions w (some code1) (some sid1)).2.2
            (some code2) (some sid2)).2.2
          ⟨a.oAuth2Client⟩ = some t2 := by
  intro exch1 exch2 a sessions w code1 code2 sid1 sid2 t1 t2 s1 s2
  intro href htc1 hts1 htc2 hts2 he1 he2 hl1 hl2
  have e1 : oauth2callbackSession exch1 a sessions w (some code1) (some sid1) =
      (⟨200, "Authentication successful! You can now close this window and use the MCP server."⟩,
        bindSession sessions sid1 a.oAuth2Client,
        writeFile (setCred w a.oAuth2Client t1) TOKEN_PATH t1) := by
    unfold oauth2callbackSession
    rw [htc1, hts1]
    simp [GSCAuth.handleCallback, he1, hl1]
  have hl2' : (bindSession sessions sid1 a.oAuth2Client).lookup sid2 =
      some (if sid2 = sid1 then { s2 with gscClient := some ⟨a.oAuth2Client⟩ } else s2) := by
    rw [lookup_bindSession, hl2]
    rfl
  have e2 : oauth2callbackSession exch2 a
      (bindSession sessions sid1 a.oAuth2Client)
      (writeFile (setCred w a.oAuth2Client t1) TOKEN_PATH t1)
      (some code2) (some sid2) =
      (⟨200, "Authentication successful! You can now close this window and use the MCP server."⟩,
        bindSession (bindSession sessions sid1 a.oAuth2Client) sid2 a.oAuth2Client,
        writeFile (setCred (writeFile (setCred w a.oAuth2Client t1) TOKEN_PATH t1)
          a.oAuth2Client t2) TOKEN_PATH t2) := by
    unfold oauth2callbackSession
    rw [htc2, hts2]
    simp [GSCAuth.handleCallback, he2, hl2']
  simp only [e1]
  simp only [e2]
  have hA : ∃ sA : Session,
      (bindSession (bindSession sessions sid1 a.oAuth2Client) sid2
        a.oAuth2Client).lookup sid1 = some sA ∧
      sA.gscClient = some ⟨a.oAuth2Client⟩ := by
    rw [lookup_bindSession, lookup_bindSession, hl1]
    by_cases h : sid1 = sid2 <;> simp [h]
  have hB : ∃ sB : Session,
      (bindSession (bindSession sessions sid1 a.oAuth2Client) sid2
        a.oAuth2Client).lookup sid2 = some sB ∧
      sB.gscClient = some ⟨a.oAuth2Client⟩ := by
    rw [lookup_bindSession, hl2']
    simp
  obtain ⟨sA, hA1, hA2⟩ := hA
  obtain ⟨sB, hB1, hB2⟩ := hB
  refine ⟨sA, sB, hA1, hA2, hB1, hB2, ?_⟩
  have hlen : a.oAuth2Client <
      (writeFile (setCred w a.oAuth2Client t1) TOKEN_PATH t1).heap.length := by
    rw [heap_length_stable]
    exact href
  simp only [GSCClient.credentialsAtCall, writeFile]
  exact credsAt_setCred _ _ _ hlen

/-- Witness for C9: two unbound sessions "s1" and "s2" over a one-client
heap; after both callbacks, both are bound to client 0 and it holds the
second exchange's tokens. -/
theorem c9_shared_oauth_client_witness :
    ∃ s1' s2' : Session,
      ((oauth2callbackSession (fun _ => .ok tok2) ⟨0⟩
          (oauth2callbackSession (fun _ => .ok tok1) ⟨0⟩
            [("s1", ⟨"s1", 0, none⟩), ("s2", ⟨"s2", 1, none⟩)] ⟨[none], []⟩
            (some "c1") (some "s1")).2.1
          (oauth2callbackSession (fun _ => .ok tok1) ⟨0⟩
            [("s1", ⟨"s1", 0, none⟩), ("s2", ⟨"s2", 1, none⟩)] ⟨[none], []⟩
            (some "c1") (some "s1")).2.2
          (some "c2") (some "s2")).2.1).lookup "s1" = some s1' ∧
      s1'.gscClient = some ⟨0⟩ ∧
      ((oauth2callbackSession (fun _ => .ok tok2) ⟨0⟩
          (oauth2callbackSession (fun _ => .ok tok1) ⟨0⟩
            [("s1", ⟨"s1", 0, none⟩), ("s2", ⟨"s2", 1, none⟩)] ⟨[none], []⟩
            (some "c1") (some "s1")).2.1
          (oauth2callbackSession (fun _ => .ok tok1) ⟨0⟩
            [("s1", ⟨"s1", 0, none⟩), ("s2", ⟨"s2", 1, none⟩)] ⟨[none], []⟩
            (some "c1") (some "s1")).2.2
          (some "c2") (some "s2")).2.1).lookup "s2" = some s2' ∧
      s2'.gscClient = some ⟨0⟩ ∧
      GSCClient.credentialsAtCall
        (oauth2callbackSession (fun _ => .ok tok2) ⟨0⟩
          (oauth2callbackSession (fun _ => .ok tok1) ⟨0⟩
            [("s1", ⟨"s1", 0, none⟩), ("s2", ⟨"s2", 1, none⟩)] ⟨[none], []⟩
            (some "c1") (some "s1")).2.1
          (oauth2callbackSession (fun _ => .ok tok1) ⟨0⟩
            [("s1", ⟨"s1", 0, none⟩), ("s2", ⟨"s2", 1, none⟩)] ⟨[none], []⟩
            (some "c1") (some "s1")).2.2
          (some "c2") (some "s2")).2.2
        ⟨0⟩ = some tok2 :=
  c9_shared_oauth_client (fun _ => .ok tok1) (fun _ => .ok tok2) ⟨0⟩
    [("s1", ⟨"s1", 0, none⟩), ("s2", ⟨"s2", 1, none⟩)] ⟨[none], []⟩
    "c1" "c2" "s1" "s2" tok1 tok2 ⟨"s1", 0, none⟩ ⟨"s2", 1, none⟩
    (by decide) rfl rfl rfl rfl rfl rfl rfl rfl

/-- Lemma: after a final `/sse` connection the module-level transport is that
connection. -/
theorem runConnections_concat (l : List Nat) (c : Nat) :
    runConnections (l ++ [c]) = some c := by
  simp [runConnections, List.foldl_append, sseHandlerProcess]

/-- C10: the process-wide server keeps one module-level transport reference:
after any sequence of `/sse` connections it equals the most recently opened
one (each new connection overwrites it), every `/messages` post is routed to
that most recent connection only, and a post made before any connection
exists is answered with the 400 "No active connection" path. -/
theorem c10_latest_connection_only :
    (∀ l : List Nat, runConnections l = l.getLast?) ∧
    (∀ (l : List Nat) (c : Nat),
      messagesHandlerProcess (runConnections (l ++ [c])) = .handled c) ∧
    messagesHandlerProcess (runConnections []) = .noConnection400 := by
  refine ⟨?_, ?_, rfl⟩
  · intro l
    induction l using List.reverseRecOn with
    | nil => rfl
    | append_singleton l c _ =>
        rw [runConnections_concat, List.getLast?_append_cons]
        rfl
  · intro l c
    rw [runConnections_concat]
    rfl

end GSC
